import Mathlib

/-!
# Verification of `heron` (GPR waveform surrogate) against its specification

Shallow embedding of `src/heron/models/torchbased.py` and `src/heron/priors.py`.

Numbers are modelled as rationals (`ℚ`); numpy arrays as `List ℚ`; Python
dictionaries as association lists `List (String × ℚ)`.  The external GP engine
(gpytorch) and tensor library (torch) are abstracted as deterministic functions
bundled in structures (`GPModel`, `Likelihood`) together with the shape laws
those libraries guarantee (a posterior over `n` points has `n` means and `n`
variances, `sample_n(k)` returns `k` paths).  In-place mutation of a numpy
buffer is made explicit: an operation that may write into a caller-supplied
array additionally returns the content of that array after the call.
-/

namespace Heron

/-! ## Kernel specification built by `HeronCUDA.build`
(`src/heron/models/torchbased.py`, lines 60-108) -/

/-- A gpytorch lengthscale constraint: `GreaterThan` is a lower bound,
`LessThan` an upper bound. -/
inductive Constraint where
  | greaterThan (bound : ℚ)
  | lessThan (bound : ℚ)
deriving DecidableEq, Repr

/-- The shape of a gpytorch covariance module as assembled by the source:
an RBF (squared-exponential) kernel active on a single input dimension and
carrying a lengthscale constraint, a product of two kernels, or a
`ScaleKernel` wrapping an inner kernel (the source passes the scale kernel a
`lengthscale_constraint` keyword, recorded here unchanged). -/
inductive Kernel where
  | rbf (active_dims : ℕ) (lengthscale_constraint : Constraint)
  | prod (k1 k2 : Kernel)
  | scale (inner : Kernel) (lengthscale_constraint : Constraint)
deriving DecidableEq, Repr

/-- Python's `reduce(operator.mul, iterable)`: left fold of `*` over a
nonempty list, `none` on the empty list (where `reduce` raises). -/
def reduceMul : List Kernel → Option Kernel
  | [] => none
  | k :: ks => some (ks.foldl Kernel.prod k)

/-- The covariance module constructed inside `HeronCUDA.build` /
`ExactGPModel.__init__`:
`ScaleKernel(time_kernel * mass_kernel * prod(spin_kernels),
lengthscale_constraint = LessThan(0.01))` with
`time_kernel = RBFKernel(active_dims=0, lengthscale_constraint=GreaterThan(0.1))`,
`mass_kernel = RBFKernel(active_dims=1, lengthscale_constraint=GreaterThan(10.))`,
`spin_kernels = [RBFKernel(active_dims=d, lengthscale_constraint=GreaterThan(7))
for d in range(2, 8)]`.  `none` would mean `reduce` raised. -/
def buildCovarModule : Option Kernel :=
  let mass_kernel := Kernel.rbf 1 (Constraint.greaterThan 10)
  let time_kernel := Kernel.rbf 0 (Constraint.greaterThan (1/10))
  let spin_kernels := (List.range' 2 6).map
    (fun dimension => Kernel.rbf dimension (Constraint.greaterThan 7))
  (reduceMul spin_kernels).map
    (fun spin_prod =>
      Kernel.scale ((time_kernel.prod mass_kernel).prod spin_prod)
        (Constraint.lessThan (1/100)))

/-- The dimension a kernel factor is active on, when it is a single-dimension
RBF factor. -/
def Kernel.rbfDim : Kernel → Option ℕ
  | .rbf d _ => some d
  | _ => none

/-! ## Abstract GP backend

The heavy numerics live in gpytorch/torch, outside this repository.  They are
abstracted as deterministic functions together with the shape guarantees the
libraries provide. -/

/-- The gpytorch evaluation settings a query runs under: `torch.no_grad()`
and `gpytorch.settings.fast_pred_var()`. -/
structure Settings where
  no_grad : Bool
  fast_pred_var : Bool
deriving DecidableEq, Repr

/-- A posterior predictive distribution (`f_preds` / `y_preds`): its mean
vector, marginal variance vector and covariance matrix, one entry per
evaluation point. -/
structure GPResult where
  mean : List ℚ
  variance : List ℚ
  covariance : List (List ℚ)
deriving DecidableEq, Repr

/-- The trained `ExactGPModel` as an inference-time object: evaluating it on
a batch of points under given settings is a deterministic function (the model
is in `eval` mode, so there is no dropout-like stochastic behaviour), and the
posterior over `n` points has `n` means and `n` variances. -/
structure GPModel where
  predict : Settings → List (List ℚ) → GPResult
  predict_mean_length : ∀ s pts, (predict s pts).mean.length = pts.length
  predict_variance_length : ∀ s pts, (predict s pts).variance.length = pts.length

/-- The `GaussianLikelihood`: applying it to a posterior yields a predictive
distribution over the same points, and `sample_n(k)` draws exactly `k` paths,
each with one entry per point. -/
structure Likelihood where
  apply : GPResult → GPResult
  sampleN : ℕ → GPResult → List (List ℚ)
  apply_mean_length : ∀ r, (apply r).mean.length = r.mean.length
  sampleN_length : ∀ n r, (sampleN n r).length = n
  sampleN_path_length : ∀ n r path, path ∈ sampleN n r → path.length = r.mean.length

/-! ## The `HeronCUDA` model object -/

/-- The class attribute `HeronCUDA.time_factor = 100`
(`torchbased.py`, line 30); shadowed by the instance attribute set in
`__init__`. -/
def classAttr_time_factor : ℚ := 100

/-- The class attribute `HeronCUDA.strain_input_factor = 1e21`
(`torchbased.py`, line 31). -/
def classAttr_strain_input_factor : ℚ := 10 ^ 21

/-- The state of a `HeronCUDA` instance: the model/likelihood pair returned
by `build` (their trained parameters, loaded from the serialized blob, are
inside `GPModel`/`Likelihood`), plus the instance attributes assigned in
`__init__`. -/
structure HeronCUDA where
  model : GPModel
  likelihood : Likelihood
  x_dimensions : ℕ
  time_factor : ℚ
  strain_input_factor : ℚ

/-- `HeronCUDA.__init__` (lines 34-45): stores the `build` result and sets
`x_dimensions = 8`, `time_factor = 1` (shadowing the class attribute `100`)
and `strain_input_factor = 1e21`.  `build`'s file I/O (training table, state
dict) is outside the embedding, so the model/likelihood pair it returns is a
parameter. -/
def HeronCUDA.init (model : GPModel) (likelihood : Likelihood) : HeronCUDA :=
  { model := model
    likelihood := likelihood
    x_dimensions := 8
    time_factor := 1
    strain_input_factor := 10 ^ 21 }

/-- `HeronCUDA._process_inputs` (lines 54-58): `times *= self.time_factor`
multiplies the caller's array in place; the parameter dictionary is rebuilt
as `{k: 100*v for k, v in p.items()}` (a fresh dict, the caller's is not
touched).  The first component is the returned pair `(times, p)`; the second
component is the content of the caller's `times` buffer after the call, which
the in-place `*=` has overwritten with the rescaled values. -/
def HeronCUDA.process_inputs (s : HeronCUDA) (times : List ℚ)
    (p : List (String × ℚ)) : (List ℚ × List (String × ℚ)) × List ℚ :=
  let times2 := times.map (fun t => t * s.time_factor)
  ((times2, p.map (fun kv => (kv.1, 100 * kv.2))), times2)

/-- Modelled from the spec: `_generate_eval_matrix` is defined in
`heron.models.gw` (the `BBHSurrogate`/`HofTSurrogate` base classes), which is
not under `src/`.  Per the spec, a query point is "a parameter dictionary
(named physical parameters) plus a time array; both are rescaled by fixed
factors before being handed to the GP": the builder runs `_process_inputs` on
the buffer it is given (hence mutating that buffer in place) and produces the
evaluation matrix with one row per time point, each row pairing the rescaled
time with the rescaled parameter values.  Returns the matrix and the content
of the given `times` buffer after the call. -/
def HeronCUDA.generate_eval_matrix (s : HeronCUDA) (p : List (String × ℚ))
    (times : List ℚ) : List (List ℚ) × List ℚ :=
  let processed := s.process_inputs times p
  let times2 := processed.1.1
  let p2 := processed.1.2
  (times2.map (fun t => t :: p2.map Prod.snd), processed.2)

/-- The result of `HeronCUDA.mean`: a Python 2-tuple `(mean, var)` or a
3-tuple `(mean, var, cov)` depending on the `covariance` flag. -/
inductive MeanResult where
  | pair (mean variance : List ℚ)
  | triple (mean variance : List ℚ) (covariance : List (List ℚ))
deriving DecidableEq, Repr

/-- `HeronCUDA.mean` (lines 110-149): saves the flag (the local name
`covariance` is later rebound to the covariance matrix), copies the caller's
times array (`times_b = times.copy()`), builds the evaluation matrix from the
copy, evaluates the model under `torch.no_grad()` and
`gpytorch.settings.fast_pred_var()`, and rescales: mean by
`1/strain_input_factor`, variance and covariance by
`1/strain_input_factor**2`.  Returns `(result, caller's times buffer after
the call, self after the call)`: the buffer is untouched (the mutation inside
`_generate_eval_matrix` hits the copy) and no attribute of `self` is
assigned. -/
def HeronCUDA.mean (s : HeronCUDA) (times : List ℚ) (p : List (String × ℚ))
    (covariance : Bool := false) : (MeanResult × List ℚ) × HeronCUDA :=
  let covariance_flag := covariance
  let times_b := times
  let points := (s.generate_eval_matrix p times_b).1
  let f_preds := s.model.predict ⟨true, true⟩ points
  let mean := f_preds.mean.map (fun x => x / s.strain_input_factor)
  let var := f_preds.variance.map (fun x => x / s.strain_input_factor ^ 2)
  let cov := f_preds.covariance.map
    (fun row => row.map (fun x => x / s.strain_input_factor ^ 2))
  ((if covariance_flag then MeanResult.triple mean var cov
    else MeanResult.pair mean var, times), s)

/-- `HeronCUDA.distribution` (lines 151-162): copies the caller's times
array, builds the evaluation matrix from the copy, evaluates the model under
no-grad/fast-variance settings, applies the likelihood and draws
`samples` paths, each divided by `strain_input_factor`.  Returns
`(paths, caller's times buffer after the call, self after the call)`. -/
def HeronCUDA.distribution (s : HeronCUDA) (times : List ℚ)
    (p : List (String × ℚ)) (samples : ℕ := 100) :
    (List (List ℚ) × List ℚ) × HeronCUDA :=
  let times_b := times
  let points := (s.generate_eval_matrix p times_b).1
  let f_preds := s.model.predict ⟨true, true⟩ points
  let y_preds := s.likelihood.apply f_preds
  (((s.likelihood.sampleN samples y_preds).map
      (fun path => path.map (fun x => x / s.strain_input_factor)), times), s)

/-- `np.linspace(a, b, n)`: `n` evenly spaced points from `a` to `b`
inclusive (the default `times` argument of the waveform methods). -/
def linspace (a b : ℚ) (n : ℕ) : List ℚ :=
  (List.range n).map (fun i => a + (b - a) * i / (n - 1))

/-- `HeronCUDA.time_domain_waveform` (lines 177-183): destructures
`self.mean(times, p)` (a 2-tuple, since the flag defaults to `False`) and
returns it unchanged; `none` would be the `ValueError` Python raises if a
3-tuple were destructured into two names. -/
def HeronCUDA.time_domain_waveform (s : HeronCUDA) (p : List (String × ℚ))
    (times : List ℚ := linspace (-2) 2 1000) :
    Option (List ℚ × List ℚ) × HeronCUDA :=
  match (s.mean times p).1.1 with
  | MeanResult.pair m v => (some (m, v), s)
  | MeanResult.triple _ _ _ => (none, s)

/-- The diagonal of a matrix, as `torch.diag` reads it. -/
def matDiag (m : List (List ℚ)) : List ℚ :=
  m.enum.filterMap (fun ir => ir.2.get? ir.1)

/-- `HeronCUDA.frequency_domain_waveform` (lines 164-175): calls
`self.mean(times, p, covariance=True)` (a 3-tuple), Fourier-transforms the
mean and the covariance (torch's `rfft`, abstracted as the parameters `rfft1`
and `rfft2` producing (real, imaginary) pairs), and stacks the diagonals of
the real and imaginary parts of the transformed covariance.  `none` would be
the `ValueError` if a 2-tuple were destructured into three names. -/
def HeronCUDA.frequency_domain_waveform (rfft1 : List ℚ → List (ℚ × ℚ))
    (rfft2 : List (List ℚ) → List (List (ℚ × ℚ))) (s : HeronCUDA)
    (p : List (String × ℚ)) (times : List ℚ := linspace (-2) 2 1000) :
    Option (List (ℚ × ℚ) × List (ℚ × ℚ)) × HeronCUDA :=
  match (s.mean times p true).1.1 with
  | MeanResult.triple m _ c =>
      let strain_f := rfft1 m
      let cov_f := rfft2 c
      let uncert_f := (matDiag (cov_f.map (fun row => row.map Prod.fst))).zip
        (matDiag (cov_f.map (fun row => row.map Prod.snd)))
      (some (strain_f, uncert_f), s)
  | MeanResult.pair _ _ => (none, s)

/-- One call to a query method of a constructed `HeronCUDA`. -/
inductive Query where
  | qmean (times : List ℚ) (p : List (String × ℚ)) (covariance : Bool)
  | qdistribution (times : List ℚ) (p : List (String × ℚ)) (samples : ℕ)
  | qtime_domain (p : List (String × ℚ)) (times : List ℚ)
  | qfrequency_domain (rfft1 : List ℚ → List (ℚ × ℚ))
      (rfft2 : List (List ℚ) → List (List (ℚ × ℚ)))
      (p : List (String × ℚ)) (times : List ℚ)

/-- The model state visible after running one query call. -/
def Query.stateAfter (q : Query) (s : HeronCUDA) : HeronCUDA :=
  match q with
  | .qmean times p c => (s.mean times p c).2
  | .qdistribution times p n => (s.distribution times p n).2
  | .qtime_domain p times => (s.time_domain_waveform p times).2
  | .qfrequency_domain r1 r2 p times =>
      (HeronCUDA.frequency_domain_waveform r1 r2 s p times).2

/-! ## `src/heron/priors.py`

`Normal.__init__` assigns `self.mean` and `self.std`; the `stats.norm`
object it builds is bound to the plain local `distro`, which dies when
`__init__` returns.  Attribute access on the instance is lookup in the
association list of assigned attributes; bare-name resolution in a method
body searches the method's local scope and then the module globals. -/

/-- A Python exception relevant to `priors.py`: `NameError` for an
unresolvable bare name, `AttributeError` for a missing attribute. -/
inductive PyErr where
  | nameError (n : String)
  | attributeError (n : String)
deriving DecidableEq, Repr

/-- The module-level names of `heron/priors.py`: its imports and the two
classes it defines.  `distro` is not among them (nor is it a Python
builtin). -/
def priorsModuleGlobals : List String := ["stats", "ndtri", "Prior", "Normal"]

/-- Python bare-name resolution inside a method of `priors.py`: the name must
be a local of the method or a module global. -/
def resolvesIn (locals : List String) (n : String) : Bool :=
  locals.contains n || priorsModuleGlobals.contains n

/-- The attribute dictionary of a `Normal(mean, std)` instance after
`__init__` (lines 15-18): only `self.mean` and `self.std` are assigned; the
local `distro = stats.norm(...)` is discarded. -/
def Normal.init (mean std : ℚ) : List (String × ℚ) :=
  [("mean", mean), ("std", std)]

/-- `Normal.logp` (lines 20-21): the body is `return distro.logpdf(x)`.  The
method's locals are `self` and `x`; `distro` must therefore resolve as a
module global, and does not, so the call raises `NameError`.  The
(unreachable) success branch would return the log-density of whatever
`distro` resolved to, abstracted as the parameter `logpdf`. -/
def Normal.logp (logpdf : ℚ → ℚ) (x : ℚ) : Except PyErr ℚ :=
  if resolvesIn ["self", "x"] "distro" then Except.ok (logpdf x)
  else Except.error (PyErr.nameError "distro")

/-- `Normal.transform` (lines 23-33): the body is
`return self.mean + self.srd * ndtri(x)`.  Python evaluates `self.mean`
(present), then `self.srd`: the attribute was never assigned, so the call
raises `AttributeError`.  `ndtri` (scipy) is abstracted as a parameter. -/
def Normal.transform (ndtri : ℚ → ℚ) (attrs : List (String × ℚ)) (x : ℚ) :
    Except PyErr ℚ :=
  match attrs.lookup "mean" with
  | none => Except.error (PyErr.attributeError "mean")
  | some m =>
      match attrs.lookup "srd" with
      | none => Except.error (PyErr.attributeError "srd")
      | some srd => Except.ok (m + srd * ndtri x)

/-! ## A concrete backend for evaluating the embedding

A degenerate deterministic GP returning zero mean, zero variance and zero
samples, used to run the query layer on explicit inputs. -/

/-- A trivial concrete `GPModel`: the zero posterior over any point set. -/
def zeroGP : GPModel where
  predict := fun _ pts =>
    { mean := pts.map (fun _ => 0)
      variance := pts.map (fun _ => 0)
      covariance := pts.map (fun _ => pts.map (fun _ => 0)) }
  predict_mean_length := fun _ pts => by simp
  predict_variance_length := fun _ pts => by simp

/-- A trivial concrete `Likelihood`: identity noise model whose sampler
returns the zero path the requested number of times. -/
def zeroLikelihood : Likelihood where
  apply := fun r => r
  sampleN := fun n r => List.replicate n (r.mean.map (fun _ => 0))
  apply_mean_length := fun _ => rfl
  sampleN_length := fun n r => by simp
  sampleN_path_length := fun n r path h => by
    rw [List.eq_of_mem_replicate h]; simp

/-- A concrete constructed `HeronCUDA` instance over the trivial backend. -/
def exampleInstance : HeronCUDA := HeronCUDA.init zeroGP zeroLikelihood

/-- The number of rows of the evaluation matrix equals the number of query
time points. -/
theorem generate_eval_matrix_length (s : HeronCUDA) (p : List (String × ℚ))
    (times : List ℚ) : (s.generate_eval_matrix p times).1.length = times.length := by
  simp [HeronCUDA.generate_eval_matrix, HeronCUDA.process_inputs]

/-- `List.lookup` after rewriting every value of an association list. -/
theorem lookup_map_value (p : List (String × ℚ)) (f : ℚ → ℚ) (k : String) :
    (p.map (fun kv => (kv.1, f kv.2))).lookup k = (p.lookup k).map f := by
  induction p with
  | nil => rfl
  | cons kv t ih =>
      simp only [List.map_cons, List.lookup]
      cases h : k == kv.1 <;> simp [h, ih]

end Heron

namespace Heron

/-- C1: The covariance module built by `HeronCUDA.build` is a `ScaleKernel`
wrapping `time_kernel * mass_kernel * (product of the six spin kernels)`:
each factor is an RBF kernel active on exactly one dimension (time on 0, mass
ratio on 1, spins on 2..7), with lengthscale lower bounds 0.1 (time), 10
(mass), 7 (each spin), and the scale kernel itself carries an upper-bound
(`LessThan`) constraint (0.01). -/
theorem build_covar_module_structure :
    buildCovarModule =
      some (Kernel.scale
        (((Kernel.rbf 0 (Constraint.greaterThan (1/10))).prod
            (Kernel.rbf 1 (Constraint.greaterThan 10))).prod
          ((((((Kernel.rbf 2 (Constraint.greaterThan 7)).prod
                 (Kernel.rbf 3 (Constraint.greaterThan 7))).prod
               (Kernel.rbf 4 (Constraint.greaterThan 7))).prod
              (Kernel.rbf 5 (Constraint.greaterThan 7))).prod
             (Kernel.rbf 6 (Constraint.greaterThan 7))).prod
            (Kernel.rbf 7 (Constraint.greaterThan 7))))
        (Constraint.lessThan (1/100))) := by
  simp [buildCovarModule, reduceMul, List.range']

/-- C2: For every times array, parameter dictionary and flag,
`HeronCUDA.mean` evaluates the trained model under no-gradient and
fast-predictive-variance settings on the evaluation matrix and returns the
predictive mean divided by `strain_input_factor` and the predictive variance
divided by `strain_input_factor` squared; with `covariance=True` it returns
the triple that additionally carries the covariance matrix divided by
`strain_input_factor` squared, with `covariance=False` only the pair. -/
theorem mean_rescaled_outputs (s : HeronCUDA) (times : List ℚ)
    (p : List (String × ℚ)) :
    (s.mean times p false).1.1 = MeanResult.pair
      ((s.model.predict ⟨true, true⟩ (s.generate_eval_matrix p times).1).mean.map
        (fun x => x / s.strain_input_factor))
      ((s.model.predict ⟨true, true⟩ (s.generate_eval_matrix p times).1).variance.map
        (fun x => x / s.strain_input_factor ^ 2))
    ∧ (s.mean times p true).1.1 = MeanResult.triple
      ((s.model.predict ⟨true, true⟩ (s.generate_eval_matrix p times).1).mean.map
        (fun x => x / s.strain_input_factor))
      ((s.model.predict ⟨true, true⟩ (s.generate_eval_matrix p times).1).variance.map
        (fun x => x / s.strain_input_factor ^ 2))
      ((s.model.predict ⟨true, true⟩ (s.generate_eval_matrix p times).1).covariance.map
        (fun row => row.map (fun x => x / s.strain_input_factor ^ 2))) :=
  ⟨rfl, rfl⟩

/-- C3: Two successive calls to `HeronCUDA.mean` with the same arguments
return identical results: the second call runs on the model state left by the
first and produces the same result (mean, variance, optional covariance, and
caller buffer), and leaves the state at the original one.  The external GP
evaluation is deterministic in inference mode, which the embedding reflects
by modelling `model(points)` as a function of the model state and points. -/
theorem mean_repeated_calls_identical (s : HeronCUDA) (times : List ℚ)
    (p : List (String × ℚ)) (c : Bool) :
    ((s.mean times p c).2.mean times p c).1 = (s.mean times p c).1
    ∧ ((s.mean times p c).2.mean times p c).2 = s :=
  ⟨rfl, rfl⟩

/-- C4: `HeronCUDA.distribution` with `samples=0` returns an empty sample
set; with `samples=n` it returns exactly `n` paths, each of length equal to
the number of query time points; and the returned set is exactly the drawn
sample set with every path divided by `strain_input_factor`. -/
theorem distribution_sample_shapes (s : HeronCUDA) (times : List ℚ)
    (p : List (String × ℚ)) (n : ℕ) :
    (s.distribution times p 0).1.1 = []
    ∧ (s.distribution times p n).1.1.length = n
    ∧ (∀ path, path ∈ (s.distribution times p n).1.1 → path.length = times.length)
    ∧ (s.distribution times p n).1.1 =
        (s.likelihood.sampleN n (s.likelihood.apply
          (s.model.predict ⟨true, true⟩ (s.generate_eval_matrix p times).1))).map
          (fun path => path.map (fun x => x / s.strain_input_factor)) := by
  refine ⟨?_, ?_, ?_, rfl⟩
  · have h0 := s.likelihood.sampleN_length 0
      (s.likelihood.apply (s.model.predict ⟨true, true⟩
        (s.generate_eval_matrix p times).1))
    simp only [HeronCUDA.distribution]
    rw [List.eq_nil_of_length_eq_zero h0]
    rfl
  · simp [HeronCUDA.distribution, s.likelihood.sampleN_length]
  · intro path hmem
    simp only [HeronCUDA.distribution, List.mem_map] at hmem
    obtain ⟨raw, hraw, hpath⟩ := hmem
    have hlen := s.likelihood.sampleN_path_length n _ raw hraw
    rw [← hpath, List.length_map, hlen, s.likelihood.apply_mean_length,
      s.model.predict_mean_length, generate_eval_matrix_length]

/-- Witness for C4 at a concrete input: the trivial backend, two query
times, one parameter, two samples; the zero path is a member of the returned
sample set and the length conclusion is instantiated on it. -/
theorem distribution_sample_shapes_witness :
    ([(0 : ℚ), 0] : List ℚ).length = ([(1 : ℚ), 2] : List ℚ).length :=
  (distribution_sample_shapes exampleInstance [1, 2] [("mass ratio", 1/2)] 2).2.2.1
    [0, 0] (by
      simp [exampleInstance, HeronCUDA.init, HeronCUDA.distribution,
        HeronCUDA.generate_eval_matrix, HeronCUDA.process_inputs, zeroGP,
        zeroLikelihood, List.replicate])

/-- C5: `HeronCUDA._process_inputs` returns the times multiplied by the
instance's `time_factor` together with a dictionary with the same key set as
`p` in which every value is `100` times the original. -/
theorem process_inputs_rescaling (s : HeronCUDA) (times : List ℚ)
    (p : List (String × ℚ)) :
    (s.process_inputs times p).1.1 = times.map (fun t => t * s.time_factor)
    ∧ ((s.process_inputs times p).1.2).map Prod.fst = p.map Prod.fst
    ∧ ∀ k, ((s.process_inputs times p).1.2).lookup k =
        (p.lookup k).map (fun v => 100 * v) := by
  refine ⟨rfl, by simp [HeronCUDA.process_inputs], fun k => ?_⟩
  simpa [HeronCUDA.process_inputs] using lookup_map_value p (fun v => 100 * v) k

/-- C6: `HeronCUDA.time_domain_waveform` is a thin view over `mean`: it
returns exactly the pair produced by `mean(times, p)` with the default
`covariance=False` flag, applying no further transform, and leaves the model
state unchanged. -/
theorem time_domain_waveform_refines_mean (s : HeronCUDA)
    (p : List (String × ℚ)) (times : List ℚ) :
    ∃ m v, (s.mean times p false).1.1 = MeanResult.pair m v
      ∧ (s.time_domain_waveform p times).1 = some (m, v)
      ∧ (s.time_domain_waveform p times).2 = s :=
  ⟨_, _, rfl, rfl, rfl⟩

/-- C7: The model is immutable after construction: every single query call
(`mean`, `distribution`, `frequency_domain_waveform`,
`time_domain_waveform`) leaves the `HeronCUDA` state — the trained model and
likelihood included — unchanged, and hence so does every sequence of query
calls, making each query independent of the ones before it. -/
theorem queries_leave_state_unchanged :
    (∀ (q : Query) (s : HeronCUDA), q.stateAfter s = s)
    ∧ ∀ (s : HeronCUDA) (qs : List Query),
        qs.foldl (fun st q => q.stateAfter st) s = s := by
  have h : ∀ (q : Query) (s : HeronCUDA), q.stateAfter s = s := by
    intro q s
    cases q with
    | qmean times p c => rfl
    | qdistribution times p n => rfl
    | qtime_domain p times =>
        simp only [Query.stateAfter, HeronCUDA.time_domain_waveform]
        cases (s.mean times p).1.1 <;> rfl
    | qfrequency_domain r1 r2 p times =>
        simp only [Query.stateAfter, HeronCUDA.frequency_domain_waveform]
        cases (s.mean times p true).1.1 <;> rfl
  refine ⟨h, fun s qs => ?_⟩
  induction qs generalizing s with
  | nil => rfl
  | cons q t ih => rw [List.foldl_cons, h q s, ih]

/-- C8: On every `Normal` prior instance and input, `logp` fails to resolve
the bare name `distro` (a discarded local of `__init__`) and raises
`NameError`, and `transform` fails to find the never-assigned attribute
`self.srd` and raises `AttributeError`; neither returns a value. -/
theorem normal_logp_transform_raise (m sd x : ℚ) (logpdf ndtri : ℚ → ℚ) :
    Normal.logp logpdf x = Except.error (PyErr.nameError "distro")
    ∧ Normal.transform ndtri (Normal.init m sd) x =
        Except.error (PyErr.attributeError "srd") := by
  constructor
  · simp [Normal.logp, resolvesIn, priorsModuleGlobals]
  · simp [Normal.transform, Normal.init, List.lookup]

/-- C9: After `__init__`, the instance attribute `time_factor` equals `1`,
shadowing the class attribute `time_factor = 100`, and `strain_input_factor`
equals `1e21`; consequently `_process_inputs` on a constructed instance
returns the time values numerically unchanged. -/
theorem init_shadows_time_factor (g : GPModel) (l : Likelihood) :
    (HeronCUDA.init g l).time_factor = 1
    ∧ classAttr_time_factor = 100
    ∧ (HeronCUDA.init g l).strain_input_factor = 10 ^ 21
    ∧ ∀ (times : List ℚ) (p : List (String × ℚ)),
        ((HeronCUDA.init g l).process_inputs times p).1.1 = times := by
  refine ⟨rfl, rfl, rfl, fun times p => ?_⟩
  simp [HeronCUDA.process_inputs, HeronCUDA.init]

/-- C10 as stated is false on a constructed instance: `_process_inputs` does
write into the caller's array in place (`times *= self.time_factor`), but
`__init__` sets `time_factor = 1`, so the written values equal the originals
and the caller observes no modification.  Here, on the instance over the
trivial backend with caller array `[2]`, the buffer content after the call
is `[2]`, identical to before. -/
theorem process_inputs_buffer_unmodified_cex :
    ((HeronCUDA.init zeroGP zeroLikelihood).process_inputs
      [2] [("mass ratio", 1/2)]).2 = [2] := by
  norm_num [HeronCUDA.process_inputs, HeronCUDA.init]

/-- C10 (amended): `mean` and `distribution` leave the caller's times array
unchanged (each copies it before building the evaluation matrix), whereas
`_process_inputs` writes `times * time_factor` into the caller's array in
place; since a constructed instance has `time_factor = 1`, the written
values coincide with the originals, so a value change is observable only
when `time_factor` differs from `1`. -/
theorem times_buffer_frame_effects (s : HeronCUDA) (g : GPModel)
    (l : Likelihood) (times : List ℚ) (p : List (String × ℚ)) (c : Bool)
    (n : ℕ) :
    (s.mean times p c).1.2 = times
    ∧ (s.distribution times p n).1.2 = times
    ∧ (s.process_inputs times p).2 = times.map (fun t => t * s.time_factor)
    ∧ ((HeronCUDA.init g l).process_inputs times p).2 = times := by
  refine ⟨rfl, rfl, rfl, ?_⟩
  simp [HeronCUDA.process_inputs, HeronCUDA.init]

end Heron
